import Mathlib

/-!
Shallow embedding of the dual-mode listing resolver of `src/main.py`
(a Flask + SQLite backend exposing artists/albums/songs).

The embedding models:
* JSON responses (`Json`), as produced by `jsonify`;
* database rows of one table as a list of `Row` values, where `Row.pkValue`
  is the value stored in the table's INTEGER primary-key column and
  `Row.restFields` the remaining columns;
* the SQLite read operations the resolver issues (`countRows`,
  `selectWhereIn`, `selectLimitOffset`, and the single-row `WHERE pk = ?`
  lookup);
* Python query-parameter handling: `request.args.get` over an association
  list, `str.split(',')`, `str.strip()`, and `int(...)` parsing;
* the resolver `generic_get` (src/main.py lines 96-146) and the single-row
  handlers `get_artist` / `get_album` / `get_song`.
-/

/-- JSON values, the result type of `jsonify`.  Object fields keep their
insertion order, as in the Python dict literals of the source. -/
inductive Json where
  | null : Json
  | int (n : Int) : Json
  | str (s : String) : Json
  | arr (elems : List Json) : Json
  | obj (fields : List (String × Json)) : Json

namespace Json

/-- Field access on a JSON object (first binding wins); `none` on non-objects. -/
def lookupField : Json → String → Option Json
  | .obj fields, k => (fields.find? (fun f => f.1 == k)).map (·.2)
  | _, _ => none

/-- Two-level field access, e.g. `resp.pagination.total`. -/
def lookupField2 (j : Json) (k1 k2 : String) : Option Json :=
  (j.lookupField k1).bind (fun j1 => j1.lookupField k2)

/-- Whether the value is a bare JSON array (a "flat, unwrapped sequence"). -/
def isArr : Json → Bool
  | .arr _ => true
  | _ => false

end Json

/-- A database row: the INTEGER primary-key column's value plus the other
columns (opaque to the resolver, which calls `dict(row)`). -/
structure Row where
  pkValue : Int
  restFields : List (String × Json)

/-- One table of the store, e.g. the `artist` table. -/
abbrev Table := List Row

/-- `dict(row)` rendered as JSON: the primary-key column followed by the
remaining columns. -/
def rowToJson (pkCol : String) (r : Row) : Json :=
  Json.obj ((pkCol, Json.int r.pkValue) :: r.restFields)

/-! ### Python string primitives used by the resolver -/

/-- Whitespace as recognized by Python's `str.strip()` (ASCII part). -/
def isPySpace (c : Char) : Bool :=
  c == ' ' || c == '\t' || c == '\n' || c == '\r' || c == '\x0b' || c == '\x0c'

/-- Python `s.strip()`: remove leading and trailing whitespace. -/
def pyStrip (s : String) : String :=
  ⟨((s.data.dropWhile isPySpace).reverse.dropWhile isPySpace).reverse⟩

/-- Helper for `pySplit`: walk the characters, cutting at each comma. -/
def pySplitAux : List Char → List Char → List String
  | [], acc => [⟨acc.reverse⟩]
  | c :: cs, acc =>
    if c == ',' then ⟨acc.reverse⟩ :: pySplitAux cs []
    else pySplitAux cs (c :: acc)

/-- Python `s.split(',')`: split on every comma; `"".split(',') == ['']`,
and empty tokens between adjacent commas are kept. -/
def pySplit (s : String) : List String :=
  pySplitAux s.data []

/-- Digit-string to number; `none` when empty or a non-digit occurs. -/
def digitsToNat? (cs : List Char) : Option Nat :=
  if cs.isEmpty then none
  else
    cs.foldl
      (fun acc c =>
        match acc with
        | none => none
        | some n => if c.isDigit then some (n * 10 + (c.toNat - '0'.toNat)) else none)
      (some 0)

/-- Python `int(s)` on a string: optional surrounding whitespace, optional
sign, decimal digits; `none` models the `ValueError` branch. -/
def pyInt? (s : String) : Option Int :=
  match (pyStrip s).data with
  | '-' :: rest => (digitsToNat? rest).map (fun n => -(n : Int))
  | '+' :: rest => (digitsToNat? rest).map (fun n => (n : Int))
  | cs => (digitsToNat? cs).map (fun n => (n : Int))

/-! ### Query parameters -/

/-- The request's query parameters, as string key/value pairs
(`request.args`); `getArg` is `request.args.get(key)` (first match). -/
abbrev Params := List (String × String)

def getArg (args : Params) (key : String) : Option String :=
  (args.find? (fun kv => kv.1 == key)).map (·.2)

/-- The `try: page = int(...); limit = int(...) except ValueError: page, limit = 1, 20`
block: an absent parameter uses the integer default (which `int` accepts
unchanged), and a parse failure of either parameter resets **both** to the
defaults, since the `except` clause reassigns both. -/
def parsePaging (args : Params) : Int × Int :=
  let pageParsed := match getArg args "page" with
    | none => some (1 : Int)
    | some s => pyInt? s
  let limitParsed := match getArg args "limit" with
    | none => some (20 : Int)
    | some s => pyInt? s
  match pageParsed, limitParsed with
  | some p, some l => (p, l)
  | _, _ => (1, 20)

def pageOf (args : Params) : Int := (parsePaging args).1

def limitOf (args : Params) : Int := (parsePaging args).2

/-- `offset = (page - 1) * limit` (src/main.py line 107). -/
def offsetOf (args : Params) : Int := (pageOf args - 1) * limitOf args

/-! ### Store read operations (the SQLite collaborator) -/

/-- SQLite comparison of the INTEGER primary-key column against a text
token of the `IN (...)` list: numeric affinity converts the token to an
integer (surrounding whitespace and a sign are accepted); a token that is
not an integer literal matches no row. -/
def pkMatchesToken (pk : Int) (tok : String) : Bool :=
  pyInt? tok == some pk

/-- `SELECT * FROM t WHERE pk IN (tok1, ..., tokN)`: the rows whose
primary-key value matches some token, in table order. -/
def selectWhereIn (t : Table) (toks : List String) : List Row :=
  t.filter (fun r => toks.any (fun tok => pkMatchesToken r.pkValue tok))

/-- `SELECT * FROM t LIMIT ? OFFSET ?` with SQLite semantics: a negative
LIMIT means no upper bound, a negative OFFSET behaves like 0. -/
def selectLimitOffset (t : Table) (limit offset : Int) : List Row :=
  let rest := t.drop offset.toNat
  if limit < 0 then rest else rest.take limit.toNat

/-- `SELECT COUNT(*) FROM t`. -/
def countRows (t : Table) : Int := t.length

/-! ### The resolver `generic_get` -/

/-- The mode test `if ids_param and ids_param.strip():` — Python truthiness
of the raw string and of its stripped form. -/
def usesBatch (args : Params) : Bool :=
  match getArg args "ids" with
  | none => false
  | some s => !(s == "") && !(pyStrip s == "")

/-- `total_pages` of the envelope:
`(total_count + limit - 1) // limit if limit > 0 else 1`
(Python `//` is floor division, `Int.fdiv`). -/
def totalPages (total limit : Int) : Int :=
  if 0 < limit then Int.fdiv (total + limit - 1) limit else 1

/-- The standard response envelope `{"pagination": {...}, "data": [...]}`
returned on every path of `generic_get` (src/main.py lines 137-146). -/
def envelope (total limit offset page : Int) (data : List Json) : Json :=
  Json.obj
    [("pagination", Json.obj
        [("total", Json.int total),
         ("limit", Json.int limit),
         ("offset", Json.int offset),
         ("total_pages", Json.int (totalPages total limit)),
         ("current_page", Json.int page)]),
     ("data", Json.arr data)]

/-- The batch branch (src/main.py lines 110-121): split `ids` on commas,
run the `IN` lookup, and let `total_count = len(rows)`. -/
def batchBranch (pkCol : String) (t : Table) (args : Params)
    (page limit offset : Int) : Json :=
  let idList := pySplit ((getArg args "ids").getD "")
  let rows := selectWhereIn t idList
  envelope (rows.length : Int) limit offset page (rows.map (rowToJson pkCol))

/-- The paging branch (src/main.py lines 123-133): unfiltered count, then a
LIMIT/OFFSET slice. -/
def pagedBranch (pkCol : String) (t : Table) (page limit offset : Int) : Json :=
  let total := countRows t
  let rows := selectLimitOffset t limit offset
  envelope total limit offset page (rows.map (rowToJson pkCol))

/-- `generic_get(table_name, pk_column)` (src/main.py lines 96-146), as a
function of the routed table's rows and the request's query parameters. -/
def generic_get (pkCol : String) (t : Table) (args : Params) : Json :=
  let page := pageOf args
  let limit := limitOf args
  let offset := (page - 1) * limit
  if usesBatch args then batchBranch pkCol t args page limit offset
  else pagedBranch pkCol t page limit offset

/-! ### Single-row handlers -/

/-- `SELECT * FROM t WHERE pk = ?` — the rows matching the exact key. -/
def selectWhereEq (t : Table) (id : Int) : List Row :=
  t.filter (fun r => r.pkValue == id)

/-- `cur.fetchone()` on that query: the first matching row, if any. -/
def singleFetch (t : Table) (id : Int) : Option Row :=
  (selectWhereEq t id).head?

/-- `jsonify(dict(row) if row else {})`. -/
def singleGet (pkCol : String) (t : Table) (id : Int) : Json :=
  match singleFetch t id with
  | some r => rowToJson pkCol r
  | none => Json.obj []

/-- `GET /artists/<id>` (src/main.py lines 153-159). -/
def get_artist (artists : Table) (id : Int) : Json :=
  singleGet "artist_id" artists id

/-- `GET /albums/<id>` (src/main.py lines 164-169). -/
def get_album (albums : Table) (id : Int) : Json :=
  singleGet "album_id" albums id

/-- `GET /songs/<id>` (src/main.py lines 174-179). -/
def get_song (songs : Table) (id : Int) : Json :=
  singleGet "song_id" songs id

/-! ### The statements `generic_get` executes against the store -/

/-- A store statement; read statements plus the mutating statements that
other endpoints of src/main.py use (INSERT, UPDATE of a parent timestamp). -/
inductive StoreOp where
  | countAll : StoreOp
  | selectIn (toks : List String) : StoreOp
  | selectSlice (limit offset : Int) : StoreOp
  | selectByKey (id : Int) : StoreOp
  | insertRow (r : Row) : StoreOp
  | touchRow (id : Int) (stamp : String) : StoreOp

/-- Read-only statements. -/
def StoreOp.isRead : StoreOp → Bool
  | .countAll => true
  | .selectIn _ => true
  | .selectSlice _ _ => true
  | .selectByKey _ => true
  | .insertRow _ => false
  | .touchRow _ _ => false

/-- Effect of a statement on the table: reads leave it unchanged, INSERT
appends, and the parent-timestamp UPDATE rewrites a column of matching rows. -/
def applyOp (t : Table) : StoreOp → Table
  | .countAll => t
  | .selectIn _ => t
  | .selectSlice _ _ => t
  | .selectByKey _ => t
  | .insertRow r => t ++ [r]
  | .touchRow id stamp =>
    t.map (fun r =>
      if r.pkValue == id then
        { r with restFields := ("updated_on", Json.str stamp) :: r.restFields }
      else r)

/-- The sequence of `cur.execute` calls `generic_get` performs, in order:
one `IN` select in batch mode; a COUNT then a LIMIT/OFFSET select in
paging mode. -/
def generic_getOps (args : Params) : List StoreOp :=
  if usesBatch args then
    [StoreOp.selectIn (pySplit ((getArg args "ids").getD ""))]
  else
    [StoreOp.countAll, StoreOp.selectSlice (limitOf args) (offsetOf args)]

/-! ### Concrete data used by witnesses and counterexamples -/

/-- A three-row artist table (ids 1, 2, 3), as in the spec's scenario. -/
def exTable : Table :=
  [{ pkValue := 1, restFields := [("artist_name", Json.str "A")] },
   { pkValue := 2, restFields := [("artist_name", Json.str "B")] },
   { pkValue := 3, restFields := [("artist_name", Json.str "C")] }]

/-- A 21-row table, one more row than the default page size. -/
def bigTable : Table :=
  (List.range 21).map (fun i => { pkValue := (i : Int), restFields := [] })

/-! ### Helper abbreviations and lemmas -/

/-- The comma-split token list of the `ids` parameter. -/
def idsTokens (args : Params) : List String :=
  pySplit ((getArg args "ids").getD "")

/-- The rows the batch branch fetches. -/
def batchRows (t : Table) (args : Params) : List Row :=
  selectWhereIn t (idsTokens args)

lemma lookupField_envelope_pagination (total limit offset page : Int) (data : List Json) :
    (envelope total limit offset page data).lookupField "pagination"
      = some (Json.obj
          [("total", Json.int total),
           ("limit", Json.int limit),
           ("offset", Json.int offset),
           ("total_pages", Json.int (totalPages total limit)),
           ("current_page", Json.int page)]) := rfl

lemma lookupField_envelope_data (total limit offset page : Int) (data : List Json) :
    (envelope total limit offset page data).lookupField "data" = some (Json.arr data) := rfl

lemma lookupField2_envelope_total (total limit offset page : Int) (data : List Json) :
    (envelope total limit offset page data).lookupField2 "pagination" "total"
      = some (Json.int total) := rfl

lemma lookupField2_envelope_limit (total limit offset page : Int) (data : List Json) :
    (envelope total limit offset page data).lookupField2 "pagination" "limit"
      = some (Json.int limit) := rfl

lemma lookupField2_envelope_offset (total limit offset page : Int) (data : List Json) :
    (envelope total limit offset page data).lookupField2 "pagination" "offset"
      = some (Json.int offset) := rfl

lemma lookupField2_envelope_total_pages (total limit offset page : Int) (data : List Json) :
    (envelope total limit offset page data).lookupField2 "pagination" "total_pages"
      = some (Json.int (totalPages total limit)) := rfl

lemma lookupField2_envelope_current_page (total limit offset page : Int) (data : List Json) :
    (envelope total limit offset page data).lookupField2 "pagination" "current_page"
      = some (Json.int page) := rfl

lemma isArr_envelope (total limit offset page : Int) (data : List Json) :
    (envelope total limit offset page data).isArr = false := rfl

lemma generic_get_of_batch (pkCol : String) (t : Table) (args : Params)
    (h : usesBatch args = true) :
    generic_get pkCol t args
      = batchBranch pkCol t args (pageOf args) (limitOf args) (offsetOf args) := by
  simp only [generic_get, offsetOf, h, if_true]

lemma generic_get_of_paged (pkCol : String) (t : Table) (args : Params)
    (h : usesBatch args = false) :
    generic_get pkCol t args
      = pagedBranch pkCol t (pageOf args) (limitOf args) (offsetOf args) := by
  simp only [generic_get, offsetOf, h, Bool.false_eq_true, if_false]

lemma batchBranch_eq_envelope (pkCol : String) (t : Table) (args : Params)
    (page limit offset : Int) :
    batchBranch pkCol t args page limit offset
      = envelope ((batchRows t args).length : Int) limit offset page
          ((batchRows t args).map (rowToJson pkCol)) := rfl

lemma pagedBranch_eq_envelope (pkCol : String) (t : Table) (page limit offset : Int) :
    pagedBranch pkCol t page limit offset
      = envelope (countRows t) limit offset page
          ((selectLimitOffset t limit offset).map (rowToJson pkCol)) := rfl

/-- Python's `//` applied in `total_pages` is exactly the integer-ceiling
division when the divisor is positive. -/
lemma totalPages_eq_ceil (n l : Int) :
    totalPages n l = if 0 < l then ⌈(n : ℚ) / (l : ℚ)⌉ else 1 := by
  unfold totalPages
  by_cases hl : 0 < l
  · simp only [hl, if_true]
    rw [Int.fdiv_eq_ediv _ (le_of_lt hl)]
    symm
    rw [Int.ceil_eq_iff]
    have hlq : (0 : ℚ) < (l : ℚ) := by exact_mod_cast hl
    have h1 := Int.ediv_add_emod (n + l - 1) l
    have h2 := Int.emod_nonneg (n + l - 1) (ne_of_gt hl)
    have h3 := Int.emod_lt_of_pos (n + l - 1) hl
    constructor
    · have hlt : ((n + l - 1) / l - 1) * l < n := by nlinarith
      calc ((((n + l - 1) / l) : Int) : ℚ) - 1
          = ((((n + l - 1) / l - 1 : Int)) : ℚ) := by push_cast; ring
        _ < (n : ℚ) / (l : ℚ) := by
            rw [lt_div_iff₀ hlq]
            exact_mod_cast hlt
    · have hle : n ≤ ((n + l - 1) / l) * l := by nlinarith
      rw [div_le_iff₀ hlq]
      exact_mod_cast hle
  · simp only [hl, if_false]

lemma mem_selectWhereIn (t : Table) (toks : List String) (r : Row) :
    r ∈ selectWhereIn t toks
      ↔ r ∈ t ∧ ∃ tok ∈ toks, pkMatchesToken r.pkValue tok = true := by
  simp [selectWhereIn, List.mem_filter, List.any_eq_true]

lemma selectWhereIn_pk_nodup (t : Table) (toks : List String)
    (hnd : (t.map Row.pkValue).Nodup) :
    ((selectWhereIn t toks).map Row.pkValue).Nodup :=
  hnd.sublist ((List.filter_sublist t).map Row.pkValue)

/-- The batch lookup returns at most one row per distinct token: each
returned row's key is the integer value of some token, keys are pairwise
distinct, and a token determines at most one key. -/
lemma selectWhereIn_length_le (t : Table) (toks : List String)
    (hnd : (t.map Row.pkValue).Nodup) :
    (selectWhereIn t toks).length ≤ toks.dedup.length := by
  classical
  set res := selectWhereIn t toks with hres
  have hres_nd : (res.map Row.pkValue).Nodup := selectWhereIn_pk_nodup t toks hnd
  have hsome_nd : ((res.map Row.pkValue).map some).Nodup :=
    hres_nd.map (Option.some_injective _)
  have hsubset : ((res.map Row.pkValue).map some).toFinset ⊆ toks.toFinset.image pyInt? := by
    intro x hx
    rw [List.mem_toFinset] at hx
    rcases List.mem_map.mp hx with ⟨v, hv, rfl⟩
    rcases List.mem_map.mp hv with ⟨r, hr, rfl⟩
    rcases (mem_selectWhereIn t toks r).mp hr with ⟨_, tok, htok, hmatch⟩
    rw [Finset.mem_image]
    refine ⟨tok, List.mem_toFinset.mpr htok, ?_⟩
    simp only [pkMatchesToken, beq_iff_eq] at hmatch
    exact hmatch
  calc res.length
      = ((res.map Row.pkValue).map some).length := by simp
    _ = ((res.map Row.pkValue).map some).toFinset.card :=
        (List.toFinset_card_of_nodup hsome_nd).symm
    _ ≤ (toks.toFinset.image pyInt?).card := Finset.card_le_card hsubset
    _ ≤ toks.toFinset.card := Finset.card_image_le
    _ = toks.dedup.length := List.card_toFinset toks

lemma selectWhereIn_dedup (t : Table) (toks : List String) :
    selectWhereIn t toks.dedup = selectWhereIn t toks := by
  unfold selectWhereIn
  apply List.filter_congr
  intro r _
  rw [Bool.eq_iff_iff]
  simp only [List.any_eq_true]
  constructor
  · rintro ⟨tok, htok, hm⟩
    exact ⟨tok, (List.mem_dedup).mp htok, hm⟩
  · rintro ⟨tok, htok, hm⟩
    exact ⟨tok, (List.mem_dedup).mpr htok, hm⟩

lemma selectWhereIn_cons_of_unmatched (t : Table) (toks : List String) (tok : String)
    (h : ∀ r ∈ t, pkMatchesToken r.pkValue tok = false) :
    selectWhereIn t (tok :: toks) = selectWhereIn t toks := by
  unfold selectWhereIn
  apply List.filter_congr
  intro r hr
  simp [List.any_cons, h r hr]

/-! ### Claims -/

/-- Claim C4: in every Paged Mode response, when `limit > 0` the envelope
field `total_pages` equals the integer-ceiling of `total_count / limit`
(so `total_count = 0` gives `total_pages = 0`), and when `limit <= 0` it
equals `1`. -/
theorem claim_C4_total_pages (pkCol : String) (t : Table) (args : Params)
    (h : usesBatch args = false) :
    (generic_get pkCol t args).lookupField2 "pagination" "total_pages"
      = some (Json.int
          (if 0 < limitOf args
           then ⌈(countRows t : ℚ) / ((limitOf args : Int) : ℚ)⌉
           else 1)) := by
  rw [generic_get_of_paged pkCol t args h, pagedBranch_eq_envelope,
    lookupField2_envelope_total_pages, totalPages_eq_ceil]

/-- Witness for C4 at a concrete paged request. -/
theorem claim_C4_total_pages_witness :
    (generic_get "artist_id" exTable [("page", "2"), ("limit", "3")]).lookupField2
        "pagination" "total_pages"
      = some (Json.int
          (if 0 < limitOf [("page", "2"), ("limit", "3")]
           then ⌈(countRows exTable : ℚ) / ((limitOf [("page", "2"), ("limit", "3")] : Int) : ℚ)⌉
           else 1)) :=
  claim_C4_total_pages "artist_id" exTable [("page", "2"), ("limit", "3")] rfl

/-- Claim C5: Batch Mode splits `ids` on commas; the returned data is the
`IN` lookup's rows; at most one row per distinct token is returned; every
returned row's key matches a token; duplicate tokens change nothing; a
token matching no row is silently absent rather than an error. -/
theorem claim_C5_batch_lookup (pkCol : String) (t : Table) (args : Params)
    (hb : usesBatch args = true) (hnd : (t.map Row.pkValue).Nodup) :
    (generic_get pkCol t args).lookupField "data"
        = some (Json.arr ((batchRows t args).map (rowToJson pkCol)))
    ∧ (batchRows t args).length ≤ (idsTokens args).dedup.length
    ∧ (∀ r ∈ batchRows t args, ∃ tok ∈ idsTokens args, pkMatchesToken r.pkValue tok = true)
    ∧ ((batchRows t args).map Row.pkValue).Nodup
    ∧ selectWhereIn t (idsTokens args).dedup = batchRows t args
    ∧ (∀ tok, (∀ r ∈ t, pkMatchesToken r.pkValue tok = false) →
        selectWhereIn t (tok :: idsTokens args) = batchRows t args) := by
  refine ⟨?_, selectWhereIn_length_le t _ hnd,
    fun r hr => ((mem_selectWhereIn t _ r).mp hr).2,
    selectWhereIn_pk_nodup t _ hnd,
    selectWhereIn_dedup t _,
    fun tok htok => selectWhereIn_cons_of_unmatched t _ tok htok⟩
  rw [generic_get_of_batch pkCol t args hb, batchBranch_eq_envelope,
    lookupField_envelope_data]

/-- Witness for C5 at `ids=1,3` against the three-row table. -/
theorem claim_C5_batch_lookup_witness :
    (batchRows exTable [("ids", "1,3")]).length
      ≤ (idsTokens [("ids", "1,3")]).dedup.length :=
  (claim_C5_batch_lookup "artist_id" exTable [("ids", "1,3")] rfl (by decide)).2.1

/-- Claim C6: `generic_get` is in Batch Mode exactly when the `ids`
parameter is present and non-empty after stripping whitespace, and the two
modes are mutually exclusive branches of the same test. -/
theorem claim_C6_mode_selection (args : Params) (pkCol : String) (t : Table) :
    (usesBatch args = true ↔ ∃ s, getArg args "ids" = some s ∧ pyStrip s ≠ "")
    ∧ (usesBatch args = true →
        generic_get pkCol t args
          = batchBranch pkCol t args (pageOf args) (limitOf args) (offsetOf args))
    ∧ (usesBatch args = false →
        generic_get pkCol t args
          = pagedBranch pkCol t (pageOf args) (limitOf args) (offsetOf args)) := by
  refine ⟨?_, fun h => generic_get_of_batch pkCol t args h,
    fun h => generic_get_of_paged pkCol t args h⟩
  unfold usesBatch
  cases h : getArg args "ids" with
  | none => simp [h]
  | some s =>
    show (!(s == "") && !(pyStrip s == "")) = true ↔ _
    simp only [Bool.and_eq_true, Bool.not_eq_true', beq_eq_false_iff_ne, ne_eq,
      Option.some.injEq]
    constructor
    · rintro ⟨_, hstrip⟩
      exact ⟨s, rfl, hstrip⟩
    · rintro ⟨s', hs', hstrip⟩
      subst hs'
      refine ⟨fun hse => hstrip ?_, hstrip⟩
      rw [hse]
      rfl

/-- Witness for C6: `ids=1,3` selects the batch branch. -/
theorem claim_C6_mode_selection_witness :
    generic_get "artist_id" exTable [("ids", "1,3")]
      = batchBranch "artist_id" exTable [("ids", "1,3")]
          (pageOf [("ids", "1,3")]) (limitOf [("ids", "1,3")])
          (offsetOf [("ids", "1,3")]) :=
  (claim_C6_mode_selection [("ids", "1,3")] "artist_id" exTable).2.1 rfl

/-- Claim C7: `generic_get` only issues read statements and leaves the
store unchanged; the batch branch executes exactly one statement (the `IN`
select) and the paging branch exactly two (COUNT, then the slice select),
hence at most two. -/
theorem claim_C7_read_only (t : Table) (args : Params) :
    ((generic_getOps args).all StoreOp.isRead = true)
    ∧ ((generic_getOps args).foldl applyOp t = t)
    ∧ (usesBatch args = true → generic_getOps args = [StoreOp.selectIn (idsTokens args)])
    ∧ (usesBatch args = false →
        generic_getOps args
          = [StoreOp.countAll, StoreOp.selectSlice (limitOf args) (offsetOf args)])
    ∧ (usesBatch args = true → (generic_getOps args).length = 1)
    ∧ (usesBatch args = false → (generic_getOps args).length ≤ 2) := by
  cases h : usesBatch args <;>
    simp [generic_getOps, h, idsTokens, StoreOp.isRead, applyOp]

/-- Witness for C7: one read statement for a batch request. -/
theorem claim_C7_read_only_witness :
    (generic_getOps [("ids", "1,3")]).length = 1 :=
  (claim_C7_read_only exTable [("ids", "1,3")]).2.2.2.2.1 rfl

/-- Claim C9: `generic_get` is deterministic — identical parameters
against an identical store state give identical response envelopes. -/
theorem claim_C9_deterministic (pkCol : String) (t₁ t₂ : Table) (a₁ a₂ : Params)
    (ht : t₁ = t₂) (ha : a₁ = a₂) :
    generic_get pkCol t₁ a₁ = generic_get pkCol t₂ a₂ := by
  subst ht ha
  rfl

/-- Witness for C9 at a concrete repeated request. -/
theorem claim_C9_deterministic_witness :
    generic_get "artist_id" exTable [("page", "1")]
      = generic_get "artist_id" exTable [("page", "1")] :=
  claim_C9_deterministic "artist_id" exTable exTable [("page", "1")] [("page", "1")] rfl rfl

lemma selectWhereEq_eq_nil (t : Table) (id : Int) (h : ∀ r ∈ t, r.pkValue ≠ id) :
    selectWhereEq t id = [] := by
  rw [selectWhereEq, List.filter_eq_nil_iff]
  intro a ha
  simp only [beq_iff_eq]
  exact h a ha

lemma singleGet_of_no_match (pkCol : String) (t : Table) (id : Int)
    (h : ∀ r ∈ t, r.pkValue ≠ id) : singleGet pkCol t id = Json.obj [] := by
  unfold singleGet singleFetch
  rw [selectWhereEq_eq_nil t id h]
  rfl

lemma singleFetch_mem (t : Table) (id : Int) (r : Row)
    (h : singleFetch t id = some r) : r ∈ t ∧ r.pkValue = id := by
  have h' : (selectWhereEq t id).head? = some r := h
  have hr : r ∈ selectWhereEq t id :=
    List.mem_of_mem_head? (Option.mem_def.mpr h')
  rcases List.mem_filter.mp hr with ⟨hmem, hbeq⟩
  exact ⟨hmem, by simpa [beq_iff_eq] using hbeq⟩

lemma selectWhereEq_length_le_one (t : Table) (id : Int)
    (hnd : (t.map Row.pkValue).Nodup) : (selectWhereEq t id).length ≤ 1 := by
  have hnd2 : ((selectWhereEq t id).map Row.pkValue).Nodup :=
    hnd.sublist ((List.filter_sublist t).map Row.pkValue)
  cases hsel : selectWhereEq t id with
  | nil => simp
  | cons a tail =>
    cases tail with
    | nil => simp
    | cons b tail2 =>
      exfalso
      have ha : a ∈ selectWhereEq t id := by
        rw [hsel]; exact List.mem_cons_self _ _
      have hb : b ∈ selectWhereEq t id := by
        rw [hsel]; exact List.mem_cons_of_mem _ (List.mem_cons_self _ _)
      have hpa : a.pkValue = id := by
        have := (List.mem_filter.mp ha).2
        simpa [beq_iff_eq] using this
      have hpb : b.pkValue = id := by
        have := (List.mem_filter.mp hb).2
        simpa [beq_iff_eq] using this
      rw [hsel] at hnd2
      simp only [List.map_cons, List.nodup_cons, List.mem_cons] at hnd2
      exact hnd2.1 (Or.inl (by rw [hpa, hpb]))

/-- Claim C1 is corrected: against the three-row table, the batch request
`ids=1,3` returns the standard `{pagination, data}` envelope, not a flat
unwrapped array. -/
theorem claim_C1_counterexample :
    usesBatch [("ids", "1,3")] = true
    ∧ Json.isArr (generic_get "artist_id" exTable [("ids", "1,3")]) = false
    ∧ (Json.lookupField (generic_get "artist_id" exTable [("ids", "1,3")])
        "pagination").isSome = true :=
  ⟨rfl, rfl, rfl⟩

/-- Claim C1 (amended): every Batch Mode request returns the same wrapped
`{pagination, data}` envelope as Paged Mode — with pagination metadata
present and the fetched rows under the `data` key — not a flat array. -/
theorem claim_C1_batch_wrapped (pkCol : String) (t : Table) (args : Params)
    (hb : usesBatch args = true) :
    generic_get pkCol t args
      = envelope ((batchRows t args).length : Int) (limitOf args) (offsetOf args)
          (pageOf args) ((batchRows t args).map (rowToJson pkCol))
    ∧ ((generic_get pkCol t args).lookupField "pagination").isSome = true
    ∧ (generic_get pkCol t args).isArr = false := by
  have heq : generic_get pkCol t args
      = envelope ((batchRows t args).length : Int) (limitOf args) (offsetOf args)
          (pageOf args) ((batchRows t args).map (rowToJson pkCol)) := by
    rw [generic_get_of_batch pkCol t args hb]
    exact batchBranch_eq_envelope pkCol t args _ _ _
  refine ⟨heq, ?_, ?_⟩
  · rw [heq, lookupField_envelope_pagination]
    rfl
  · rw [heq]
    exact isArr_envelope _ _ _ _ _

/-- Witness for the amended C1 at `ids=1,3`. -/
theorem claim_C1_batch_wrapped_witness :
    (generic_get "artist_id" exTable [("ids", "1,3")]).isArr = false :=
  (claim_C1_batch_wrapped "artist_id" exTable [("ids", "1,3")] rfl).2.2

/-- Claim C8: the single-row handlers fetch at most one row by exact
primary-key match and return an empty JSON object when no row matches,
rather than raising or returning an error status. -/
theorem claim_C8_single_row (artists albums songs t : Table) (pkCol : String) (id : Int) :
    ((∀ r ∈ artists, r.pkValue ≠ id) → get_artist artists id = Json.obj [])
    ∧ ((∀ r ∈ albums, r.pkValue ≠ id) → get_album albums id = Json.obj [])
    ∧ ((∀ r ∈ songs, r.pkValue ≠ id) → get_song songs id = Json.obj [])
    ∧ (∀ r, singleFetch t id = some r → r ∈ t ∧ r.pkValue = id)
    ∧ ((t.map Row.pkValue).Nodup → (selectWhereEq t id).length ≤ 1)
    ∧ (singleGet pkCol t id = Json.obj []
        ∨ ∃ r, singleFetch t id = some r ∧ singleGet pkCol t id = rowToJson pkCol r) := by
  refine ⟨fun h => singleGet_of_no_match _ artists id h,
    fun h => singleGet_of_no_match _ albums id h,
    fun h => singleGet_of_no_match _ songs id h,
    fun r h => singleFetch_mem t id r h,
    fun hnd => selectWhereEq_length_le_one t id hnd, ?_⟩
  unfold singleGet
  cases h : singleFetch t id with
  | none => exact Or.inl rfl
  | some r => exact Or.inr ⟨r, rfl, rfl⟩

/-- Witness for C8: id 99 matches no row of the three-row table. -/
theorem claim_C8_single_row_witness :
    get_artist exTable 99 = Json.obj [] :=
  (claim_C8_single_row exTable exTable exTable exTable "artist_id" 99).1 (by decide)

/-- Claim C10: in Batch Mode the envelope's `pagination.total` is the
number of rows the `IN` lookup returned (not the table's row count), and
`limit`, `offset`, `current_page`, `total_pages` are still computed from
the `page`/`limit` parameters; at `ids=1,3` on the three-row table the
total is 2 while the table holds 3 rows. -/
theorem claim_C10_batch_pagination (pkCol : String) (t : Table) (args : Params)
    (hb : usesBatch args = true) :
    ((generic_get pkCol t args).lookupField2 "pagination" "total"
        = some (Json.int ((batchRows t args).length : Int)))
    ∧ ((generic_get pkCol t args).lookupField2 "pagination" "limit"
        = some (Json.int (limitOf args)))
    ∧ ((generic_get pkCol t args).lookupField2 "pagination" "offset"
        = some (Json.int (offsetOf args)))
    ∧ ((generic_get pkCol t args).lookupField2 "pagination" "current_page"
        = some (Json.int (pageOf args)))
    ∧ ((generic_get pkCol t args).lookupField2 "pagination" "total_pages"
        = some (Json.int (totalPages ((batchRows t args).length : Int) (limitOf args))))
    ∧ ((batchRows exTable [("ids", "1,3")]).length = 2
        ∧ countRows exTable = 3 ∧ (2 : Int) ≠ 3) := by
  have heq : generic_get pkCol t args
      = envelope ((batchRows t args).length : Int) (limitOf args) (offsetOf args)
          (pageOf args) ((batchRows t args).map (rowToJson pkCol)) := by
    rw [generic_get_of_batch pkCol t args hb]
    exact batchBranch_eq_envelope pkCol t args _ _ _
  rw [heq, lookupField2_envelope_total, lookupField2_envelope_limit,
    lookupField2_envelope_offset, lookupField2_envelope_current_page,
    lookupField2_envelope_total_pages]
  exact ⟨rfl, rfl, rfl, rfl, rfl, rfl, rfl, by decide⟩

/-- Witness for C10 at `ids=1,3`: the total field counts the fetched rows. -/
theorem claim_C10_batch_pagination_witness :
    (generic_get "artist_id" exTable [("ids", "1,3")]).lookupField2 "pagination" "total"
      = some (Json.int ((batchRows exTable [("ids", "1,3")]).length : Int)) :=
  (claim_C10_batch_pagination "artist_id" exTable [("ids", "1,3")] rfl).1

/-- Claim C2 is corrected: on a 21-row table, the request
`startIndex=1&batchSize=-1` returns only the first 20 rows (the `page=1`,
`limit=20` defaults), not every row of the resource. -/
theorem claim_C2_counterexample :
    ((generic_get "artist_id" bigTable [("startIndex", "1"), ("batchSize", "-1")]).lookupField
        "data" = some (Json.arr ((bigTable.take 20).map (rowToJson "artist_id"))))
    ∧ bigTable.length = 21
    ∧ ((bigTable.take 20).map (rowToJson "artist_id")).length = 20
    ∧ (generic_get "artist_id" bigTable [("startIndex", "1"), ("batchSize", "-1")]).lookupField
        "data" ≠ some (Json.arr (bigTable.map (rowToJson "artist_id"))) := by
  refine ⟨rfl, rfl, rfl, ?_⟩
  intro h
  have h20 : (generic_get "artist_id" bigTable
        [("startIndex", "1"), ("batchSize", "-1")]).lookupField "data"
      = some (Json.arr ((bigTable.take 20).map (rowToJson "artist_id"))) := rfl
  rw [h20] at h
  have hlen := congrArg List.length (Json.arr.inj (Option.some.inj h))
  exact absurd hlen (by decide)

/-- Claim C2 (amended): `generic_get` ignores `startIndex` and `batchSize`
entirely; without `ids` the request behaves exactly like a request with no
parameters — the `page=1`, `limit=20` defaults — so the data is the first
20 rows, which is the whole resource only when it has at most 20 rows. -/
theorem claim_C2_defaults (pkCol : String) (t : Table) :
    generic_get pkCol t [("startIndex", "1"), ("batchSize", "-1")]
      = generic_get pkCol t []
    ∧ (generic_get pkCol t [("startIndex", "1"), ("batchSize", "-1")]).lookupField "data"
        = some (Json.arr ((t.take 20).map (rowToJson pkCol)))
    ∧ (t.length ≤ 20 →
        (generic_get pkCol t [("startIndex", "1"), ("batchSize", "-1")]).lookupField "data"
          = some (Json.arr (t.map (rowToJson pkCol)))) := by
  refine ⟨rfl, rfl, fun h => ?_⟩
  have h20 : (generic_get pkCol t [("startIndex", "1"), ("batchSize", "-1")]).lookupField "data"
      = some (Json.arr ((t.take 20).map (rowToJson pkCol))) := rfl
  rw [h20, List.take_of_length_le h]

/-- Witness for the amended C2: on the three-row table the default page
holds the entire resource. -/
theorem claim_C2_defaults_witness :
    (generic_get "artist_id" exTable [("startIndex", "1"), ("batchSize", "-1")]).lookupField
        "data" = some (Json.arr (exTable.map (rowToJson "artist_id"))) :=
  (claim_C2_defaults "artist_id" exTable).2.2 (by decide)

/-- Claim C3 is corrected: with `page=abc&limit=5` the `except` clause
resets `limit` to 20 as well, so the response differs from the same
request with only `page` omitted (whose `limit` stays 5). -/
theorem claim_C3_counterexample :
    ((generic_get "artist_id" exTable [("page", "abc"), ("limit", "5")]).lookupField2
        "pagination" "limit" = some (Json.int 20))
    ∧ ((generic_get "artist_id" exTable [("limit", "5")]).lookupField2
        "pagination" "limit" = some (Json.int 5))
    ∧ generic_get "artist_id" exTable [("page", "abc"), ("limit", "5")]
        ≠ generic_get "artist_id" exTable [("limit", "5")] := by
  refine ⟨rfl, rfl, ?_⟩
  intro h
  have h1 : (generic_get "artist_id" exTable [("page", "abc"), ("limit", "5")]).lookupField2
      "pagination" "limit" = some (Json.int 20) := rfl
  have h2 : (generic_get "artist_id" exTable [("limit", "5")]).lookupField2
      "pagination" "limit" = some (Json.int 5) := rfl
  rw [h] at h1
  have hint := Json.int.inj (Option.some.inj (h2.symm.trans h1))
  exact absurd hint (by decide)

/-- Claim C3 (amended): a non-integer `page` value never raises, but it
makes **both** `page` and `limit` fall back to their defaults (1 and 20),
so the response equals that of the same request with both `page` and
`limit` omitted — a given valid `limit` does not keep its value. -/
theorem claim_C3_malformed_page (pkCol : String) (t : Table) (pageStr limitStr : String)
    (h : pyInt? pageStr = none) :
    generic_get pkCol t [("page", pageStr), ("limit", limitStr)]
      = generic_get pkCol t [] := by
  have hids : usesBatch [("page", pageStr), ("limit", limitStr)] = false := rfl
  have hpl : parsePaging [("page", pageStr), ("limit", limitStr)] = (1, 20) := by
    have hp : getArg [("page", pageStr), ("limit", limitStr)] "page" = some pageStr := rfl
    have hl : getArg [("page", pageStr), ("limit", limitStr)] "limit" = some limitStr := rfl
    simp only [parsePaging, hp, hl, h]
  rw [generic_get_of_paged pkCol t _ hids, generic_get_of_paged pkCol t [] rfl]
  simp only [pageOf, limitOf, offsetOf, hpl]
  rfl

/-- Witness for the amended C3 at `page=abc&limit=5`. -/
theorem claim_C3_malformed_page_witness :
    generic_get "artist_id" exTable [("page", "abc"), ("limit", "5")]
      = generic_get "artist_id" exTable [] :=
  claim_C3_malformed_page "artist_id" exTable "abc" "5" rfl
